import Mathlib

/-!
Verification development for the GHSL merge→clip→reproject pipeline
(`src/python/ghsl_merge_clip.py`).

The script's `main` is embedded shallowly:

* a raster grid is a `List (List Cell)` where a cell is `Option Int`
  (`none` plays the role of the NaN nodata value; GHSL pixel values are
  integers in a range where the `astype('float32')` cast is value-preserving,
  so the numeric payload is modelled as `Int` and the `float32` dtype is
  tracked as metadata);
* geometry operations performed by the geopandas/shapely backend
  (`to_crs`, `buffer`, the all-touched footprint-intersection test used by
  `rio.clip`) are parameters of the model (`GeoOps`), so every theorem holds
  for every possible behaviour of the geometry library;
* each fallible step returns `Except PErr`, mirroring the exceptions the
  script can raise, and `pyMain` mirrors the `try/except` wrapper of `main`.
-/

/-- A pixel value after the masked read: `none` models NaN. -/
abbrev Cell := Option Int

/-- A single-band raster data array, rows of cells. -/
abbrev Grid := List (List Cell)

/-- Element datatypes that appear in the pipeline. -/
inductive DType where
  | int16
  | float32
  | float64
deriving DecidableEq, Repr

/-- The declared nodata sentinel of a raster: a numeric value, NaN
(after `rio.write_nodata(np.nan)`), or no declaration. -/
inductive NodataSpec where
  | intVal (v : Int)
  | nan
  | unspecified
deriving DecidableEq, Repr

/-- An in-memory raster: data array plus CRS / dtype / nodata metadata,
the fields `rioxarray` carries on a `DataArray`. CRS is modelled by its
EPSG-style numeric code. -/
structure Raster where
  grid : Grid
  crs : Nat
  dtype : DType
  nodata : NodataSpec
deriving DecidableEq, Repr

/-- An on-disk tile file as discovered by the glob: raw integer pixels plus
the file's declared CRS, dtype and (optional) nodata value. -/
structure TileFile where
  grid : List (List Int)
  crs : Nat
  dtype : DType
  nodata : Option Int
deriving DecidableEq, Repr

/-! ### Normalization (`main`, lines 62–68)

`rioxarray.open_rasterio(fp, masked=True)` converts every pixel equal to the
file's declared nodata value to NaN and promotes the data to floating point;
then `da.where(da != -200, other=np.nan)` turns the legacy sentinel −200 into
NaN (NumPy's `NaN != -200` is `True`, so NaN cells are kept as NaN);
`astype('float32')` fixes the dtype and `rio.write_nodata(np.nan)` declares
NaN as the nodata sentinel. -/

/-- Masked read of one pixel: a pixel equal to the file's declared nodata
value becomes NaN. -/
def maskedCell (declared : Option Int) (v : Int) : Cell :=
  if some v = declared then none else some v

/-- Model of `rioxarray.open_rasterio(fp, masked=True)`: masked pixels become NaN and
the array is promoted to floating point. -/
def maskedOpen (t : TileFile) : Raster :=
  { grid := t.grid.map (fun row => row.map (maskedCell t.nodata))
    crs := t.crs
    dtype := .float64
    nodata := match t.nodata with
              | some _ => .nan
              | none => .unspecified }

/-- One pixel of `da.where(da != -200, other=np.nan)`: the sentinel −200
becomes NaN; NaN compares unequal to −200 in NumPy and is kept. -/
def whereCell (c : Cell) : Cell :=
  match c with
  | none => none
  | some x => if x = -200 then none else some x

/-- Model of `da.where(da != -200, other=np.nan)` over the whole array. -/
def whereNotSentinel (r : Raster) : Raster :=
  { r with grid := r.grid.map (fun row => row.map whereCell) }

/-- Model of `da.astype('float32')`. -/
def astypeF32 (r : Raster) : Raster :=
  { r with dtype := .float32 }

/-- Model of `da.rio.write_nodata(np.nan)`. -/
def writeNodataNan (r : Raster) : Raster :=
  { r with nodata := .nan }

/-- The whole normalization of one tile, exactly the loop body of
`main`, lines 63–67. -/
def normalizeTile (t : TileFile) : Raster :=
  writeNodataNan (astypeF32 (whereNotSentinel (maskedOpen t)))

/-- The per-pixel effect of normalization: the composition of the masked
read and the sentinel substitution. -/
def normCell (declared : Option Int) (v : Int) : Cell :=
  whereCell (maskedCell declared v)

/-- The grid of a normalized tile is the raw grid mapped through
`normCell`. -/
theorem normalizeTile_grid (t : TileFile) :
    (normalizeTile t).grid =
      t.grid.map (fun row => row.map (normCell t.nodata)) := by
  simp [normalizeTile, writeNodataNan, astypeF32, whereNotSentinel, maskedOpen,
    normCell, Function.comp]

/-! ### Merge (`main`, lines 70–72)

`xr.concat(rasters, dim='band').max(dim='band', skipna=True)` stacks the
normalized tiles along a synthetic axis and reduces with the NaN-skipping
maximum, then `rio.write_nodata(np.nan)` re-declares NaN.  The CRS (and
dtype) of the result are those of the stacked inputs, all equal to the first
tile's (line 75 reads `rasters[0].rio.crs`). -/

/-- NaN-skipping maximum of two cells: NaN only when both are NaN. -/
def nanmax2 (a b : Cell) : Cell :=
  match a, b with
  | none, none => none
  | none, some y => some y
  | some x, none => some x
  | some x, some y => some (max x y)

/-- Pointwise combination of two grids (truncating at the common shape,
as the `band` dimension alignment does for identically shaped tiles). -/
def gridZip (f : Cell → Cell → Cell) (A B : Grid) : Grid :=
  List.zipWith (List.zipWith f) A B

/-- The band-axis NaN-skipping max reduction over a stack of grids. -/
def mergeGrids (g : Grid) (gs : List Grid) : Grid :=
  gs.foldl (gridZip nanmax2) g

/-- The merge step: reduce the normalized rasters with the NaN-skipping
maximum and declare NaN as nodata; CRS and dtype are the stacked inputs'
(the first raster's). -/
def mergeRasters (r : Raster) (rs : List Raster) : Raster :=
  { grid := mergeGrids r.grid (rs.map Raster.grid)
    crs := r.crs
    dtype := r.dtype
    nodata := .nan }

/-! ### Cell access helpers -/

/-- Cell at row `i`, column `j`; `none` when out of bounds, `some c`
with the (possibly NaN) cell otherwise. -/
def cellAt (g : Grid) (i j : Nat) : Option Cell :=
  g[i]?.bind (fun row => row[j]?)

theorem getElem?_zipWith {α : Type} (f : α → α → α) (l₁ l₂ : List α) (i : Nat) :
    (List.zipWith f l₁ l₂)[i]? =
      l₁[i]?.bind (fun a => l₂[i]?.map (f a)) := by
  induction l₁ generalizing l₂ i with
  | nil => simp
  | cons a l ih =>
    cases l₂ with
    | nil => simp
    | cons b l' =>
      cases i with
      | zero => simp
      | succ n => simpa using ih l' n

theorem cellAt_gridZip (f : Cell → Cell → Cell) (A B : Grid) (i j : Nat)
    (a b : Cell) (ha : cellAt A i j = some a) (hb : cellAt B i j = some b) :
    cellAt (gridZip f A B) i j = some (f a b) := by
  unfold cellAt gridZip at *
  rw [getElem?_zipWith]
  cases hA : A[i]? with
  | none => simp [hA] at ha
  | some rowA =>
    cases hB : B[i]? with
    | none => simp [hB] at hb
    | some rowB =>
      simp [hA] at ha
      simp [hB] at hb
      simp [hA, hB, getElem?_zipWith, ha, hb]

/-! ### Boundary, CRS reconciliation and buffering (`main`, lines 77–79)

```python
if boundary_gdf.crs != raster_crs:
    boundary_gdf = boundary_gdf.to_crs(raster_crs).buffer(5000)
```

The geometry primitives supplied by geopandas/shapely — per-geometry
reprojection (`to_crs`), per-geometry buffering (`buffer`, which GeoPandas
applies elementwise to the series) and the all-touched footprint-intersection
test performed by `rio.clip(..., all_touched=True)` — are parameters of the
model, so the theorems hold for every behaviour of the geometry backend. -/

/-- The geometry-library primitives the script calls, over an abstract
geometry type `G`. `touches g (i, j)` is the rasterization test: does the
footprint of pixel `(i, j)` intersect geometry `g` (the `all_touched=True`
inclusion rule). -/
structure GeoOps (G : Type) where
  toCrsG : G → Nat → G
  bufferG : G → Int → G
  touches : G → Nat × Nat → Bool

/-- The loaded boundary vector file: a CRS and its polygon geometries. -/
structure Boundary (G : Type) where
  crs : Nat
  geoms : List G
deriving DecidableEq, Repr

/-- Lines 77–79 of `main`: when the boundary CRS differs from the raster
CRS, reproject every geometry to the raster CRS and buffer each by 5000;
when the CRSs agree, the branch is not taken and the boundary is left
unchanged (in particular it is NOT buffered). -/
def reconcileBoundary {G : Type} (ops : GeoOps G) (b : Boundary G)
    (rasterCrs : Nat) : Boundary G :=
  if b.crs ≠ rasterCrs then
    { crs := rasterCrs
      geoms := b.geoms.map (fun g => ops.bufferG (ops.toCrsG g rasterCrs) 5000) }
  else b

/-! ### Clip (`main`, line 83)

`merged.rio.clip(boundary_gdf.geometry.values, boundary_gdf.crs,
all_touched=True)`: a pixel is kept when its footprint intersects some mask
geometry, every other pixel is set to the nodata value NaN, and rioxarray
raises `NoDataInBounds` (modelled as `PErr.clipEmpty`) when no pixel of the
raster is touched by the mask at all. -/

/-- The error kinds `main` can hit, mirroring §7 of the design: the
`FileNotFoundError` for an empty glob (`NoInputError`), the unreadable
boundary file, rioxarray's empty-clip error (`ClipEmptyError`) and a failed
write (`WriteError`). -/
inductive PErr where
  | noInput
  | boundaryReadError
  | clipEmpty
  | writeError
deriving DecidableEq, Repr

/-- Map a function over one row together with the column index, starting
at column `j`. -/
def mapRowIdx (f : Nat → Cell → Cell) (j : Nat) : List Cell → List Cell
  | [] => []
  | c :: cs => f j c :: mapRowIdx f (j + 1) cs

/-- Map a function over a grid together with row and column indices,
starting at row `i`. -/
def mapGridIdx (f : Nat → Nat → Cell → Cell) (i : Nat) : Grid → Grid
  | [] => []
  | row :: rows => mapRowIdx (f i) 0 row :: mapGridIdx f (i + 1) rows

/-- Does the footprint of pixel `(i, j)` intersect any mask geometry? -/
def maskTouches {G : Type} (ops : GeoOps G) (geoms : List G) (i j : Nat) :
    Bool :=
  geoms.any (fun g => ops.touches g (i, j))

/-- Is any pixel of the row (starting at column `j` of row `i`) touched? -/
def anyTouchedRow {G : Type} (ops : GeoOps G) (geoms : List G) (i j : Nat) :
    List Cell → Bool
  | [] => false
  | _ :: cs => maskTouches ops geoms i j || anyTouchedRow ops geoms i (j + 1) cs

/-- Is any pixel of the grid (starting at row `i`) touched by the mask? -/
def anyTouched {G : Type} (ops : GeoOps G) (geoms : List G) (i : Nat) :
    Grid → Bool
  | [] => false
  | row :: rows => anyTouchedRow ops geoms i 0 row || anyTouched ops geoms (i + 1) rows

/-- The masked data array: pixels whose footprint intersects no mask
geometry are set to NaN, touched pixels keep their value. -/
def clipGrid {G : Type} (ops : GeoOps G) (geoms : List G) (g : Grid) : Grid :=
  mapGridIdx (fun i j c => if maskTouches ops geoms i j then c else none) 0 g

/-- Model of `rio.clip(..., all_touched=True)`: fails with the empty-clip error when
the mask touches no pixel, otherwise masks untouched pixels to NaN. CRS,
dtype and nodata metadata are carried over unchanged. -/
def clipRaster {G : Type} (ops : GeoOps G) (geoms : List G) (r : Raster) :
    Except PErr Raster :=
  if anyTouched ops geoms 0 r.grid then
    .ok { r with grid := clipGrid ops geoms r.grid }
  else
    .error .clipEmpty

/-! ### Reproject (`main`, lines 86–88) and write (lines 91–97) -/

/-- Warp resampling strategies relevant to the claims. -/
inductive Resampling where
  | nearest
  | bilinear
  | cubic
deriving DecidableEq, Repr

/-- The resampling method `DataArray.rio.reproject` uses when the call —
as in `clipped.rio.reproject("EPSG:4326")` at line 88 — passes none:
rasterio/rioxarray document `Resampling.nearest` as the default. -/
def rioReprojectDefaultResampling : Resampling := .nearest

/-- Model of `rio.reproject`: the raster is warped to the destination CRS with the
given resampling method; dtype and the NaN nodata declaration are carried
over by rioxarray. -/
def reprojectRaster (r : Raster) (dstCrs : Nat) (_rs : Resampling) : Raster :=
  { r with crs := dstCrs }

/-- Model of `rio.to_raster(output_file, dtype='float32', compress='deflate',
predictor=2)`: the file is written with the explicit `float32` dtype and the
raster's own nodata tag (NaN); compression settings carry no data
semantics. -/
def writeRaster (r : Raster) : Raster :=
  { r with dtype := .float32 }

/-! ### The pipeline (`main`, lines 45–97) -/

/-- One run's configuration: the target year and the reproject flag
(`reproject = not args.no_reproject`). -/
structure Config where
  year : Nat
  reproject : Bool
deriving DecidableEq, Repr

/-- The inputs a run can observe: the files returned by the glob for the
year pattern, the boundary file (`none` when `gpd.read_file` fails), and
whether the destination is writable. -/
structure World (G : Type) where
  tileFiles : List TileFile
  boundary : Option (Boundary G)
  writeOk : Bool

/-- Observable side effects of a run, in order. -/
inductive Event where
  | readBoundary
  | openTile (idx : Nat)
  | clipped
  | reprojected (rs : Resampling)
  | wrote
deriving DecidableEq, Repr

/-- The body of `main`'s `try` block, lines 45–97: glob check, boundary
load, per-tile normalization, merge, CRS reconciliation (with its
conditional buffering), clip, optional reproject with the library-default
resampling, write. Returns the trace of side effects and either the written
raster or the error that aborted the run. -/
def runPipeline {G : Type} (ops : GeoOps G) (w : World G) (cfg : Config) :
    List Event × Except PErr Raster :=
  match w.tileFiles with
  | [] => ([], .error .noInput)
  | t :: ts =>
    match w.boundary with
    | none => ([.readBoundary], .error .boundaryReadError)
    | some bdy =>
      let openEvents := (List.range (ts.length + 1)).map Event.openTile
      let merged := mergeRasters (normalizeTile t) (ts.map normalizeTile)
      let rasterCrs := (normalizeTile t).crs
      let bdy2 := reconcileBoundary ops bdy rasterCrs
      match clipRaster ops bdy2.geoms merged with
      | .error e => (.readBoundary :: openEvents, .error e)
      | .ok clipped =>
        let evs := .readBoundary :: openEvents ++ [Event.clipped]
        if cfg.reproject then
          let final := reprojectRaster clipped 4326 rioReprojectDefaultResampling
          if w.writeOk then
            (evs ++ [.reprojected rioReprojectDefaultResampling, .wrote],
             .ok (writeRaster final))
          else
            (evs ++ [.reprojected rioReprojectDefaultResampling],
             .error .writeError)
        else
          if w.writeOk then (evs ++ [.wrote], .ok (writeRaster clipped))
          else (evs, .error .writeError)

/-- What the operating system observes of one invocation. -/
structure MainResult where
  exitCode : Nat
  printedDiagnostic : Bool
deriving DecidableEq, Repr

/-- The `try/except` wrapper of `main` (lines 101–107): both `except`
branches print the error and return normally, so the interpreter exits with
status 0 whether or not the run failed. -/
def pyMain {G : Type} (ops : GeoOps G) (w : World G) (cfg : Config) :
    MainResult :=
  match (runPipeline ops w cfg).2 with
  | .ok _ => { exitCode := 0, printedDiagnostic := false }
  | .error _ => { exitCode := 0, printedDiagnostic := true }

/-! ### File paths and the year glob (`main`, lines 41–43)

```python
raster_pattern = os.path.join(data_folder, "ghsl", f"*{year}*.tif")
geojson_file   = os.path.join(data_folder, "admin", "adm1.geojson")
output_file    = os.path.join(data_folder, "ghsl", f"ghsl_{year}.tif")
```
-/

/-- File names and paths as character lists. -/
abbrev FileName := List Char

/-- Model of `os.path.join` for one component. -/
def joinPath (a b : FileName) : FileName := a ++ '/' :: b

/-- The directory the year glob searches: `<data_folder>/ghsl`. -/
def globDir (dataFolder : FileName) : FileName :=
  joinPath dataFolder "ghsl".data

/-- The output file name `ghsl_<year>.tif`. -/
def outputFileName (year : Nat) : FileName :=
  "ghsl_".data ++ (toString year).data ++ ".tif".data

/-- The output path `<data_folder>/ghsl/ghsl_<year>.tif`. -/
def outputPath (dataFolder : FileName) (year : Nat) : FileName :=
  joinPath (globDir dataFolder) (outputFileName year)

/-- Does the pattern `<mid>*<suf>` match this tail (the remainder after the
leading `*` consumed a prefix)? -/
def matchTail (mid suf name : FileName) : Bool :=
  mid.isPrefixOf name && suf.isSuffixOf (name.drop mid.length)

/-- Does `*<mid>*<suf>` match the name: try every split point for the
leading `*`. -/
def matchStar (mid suf : FileName) : FileName → Bool
  | [] => matchTail mid suf []
  | c :: cs => matchTail mid suf (c :: cs) || matchStar mid suf cs

/-- The glob pattern `*<year>*.tif` of line 41, as a matcher on file
names. -/
def matchesYearPattern (year : Nat) (name : FileName) : Bool :=
  matchStar (toString year).data ".tif".data name

/-- The declarative reading of the glob pattern `*<year>*.tif`. -/
def globSpec (year : Nat) (name : FileName) : Prop :=
  ∃ a b, name = a ++ (toString year).data ++ b ++ ".tif".data

/-! ### Helper lemmas -/

theorem nanmax2_comm (a b : Cell) : nanmax2 a b = nanmax2 b a := by
  cases a <;> cases b <;> simp [nanmax2, max_comm]

theorem gridZip_nanmax2_comm (A B : Grid) :
    gridZip nanmax2 A B = gridZip nanmax2 B A := by
  unfold gridZip
  apply List.zipWith_comm_of_comm
  intro r₁ r₂
  exact List.zipWith_comm_of_comm nanmax2 nanmax2_comm r₁ r₂

theorem getElem?_mapRowIdx (f : Nat → Cell → Cell) (j k : Nat)
    (cs : List Cell) :
    (mapRowIdx f j cs)[k]? = cs[k]?.map (f (j + k)) := by
  induction cs generalizing j k with
  | nil => simp [mapRowIdx]
  | cons c cs ih =>
    cases k with
    | zero => simp [mapRowIdx]
    | succ n =>
      have harith : j + 1 + n = j + (n + 1) := by omega
      simp [mapRowIdx, ih (j + 1) n, harith]

theorem getElem?_mapGridIdx (f : Nat → Nat → Cell → Cell) (i k : Nat)
    (g : Grid) :
    (mapGridIdx f i g)[k]? = g[k]?.map (fun row => mapRowIdx (f (i + k)) 0 row) := by
  induction g generalizing i k with
  | nil => simp [mapGridIdx]
  | cons row rows ih =>
    cases k with
    | zero => simp [mapGridIdx]
    | succ n =>
      have harith : i + 1 + n = i + (n + 1) := by omega
      simp [mapGridIdx, ih (i + 1) n, harith]

theorem cellAt_mapGridIdx (f : Nat → Nat → Cell → Cell) (g : Grid)
    (i j : Nat) :
    cellAt (mapGridIdx f 0 g) i j = (cellAt g i j).map (f i j) := by
  unfold cellAt
  rw [getElem?_mapGridIdx]
  cases h : g[i]? with
  | none => simp
  | some row => simp [getElem?_mapRowIdx]

theorem isPrefixOf_append_self {α : Type} [BEq α] [LawfulBEq α]
    (l t : List α) : l.isPrefixOf (l ++ t) = true := by
  induction l with
  | nil => simp [List.isPrefixOf]
  | cons c cs ih => simp [List.isPrefixOf, ih]

theorem isSuffixOf_self {α : Type} [BEq α] [LawfulBEq α] (l : List α) :
    l.isSuffixOf l = true := by
  unfold List.isSuffixOf
  simp

theorem matchTail_append_self (mid suf : FileName) :
    matchTail mid suf (mid ++ suf) = true := by
  unfold matchTail
  rw [List.drop_left, isPrefixOf_append_self, isSuffixOf_self]
  rfl

theorem matchStar_of_matchTail (mid suf pre rest : FileName)
    (h : matchTail mid suf rest = true) :
    matchStar mid suf (pre ++ rest) = true := by
  induction pre with
  | nil =>
    cases rest with
    | nil => simpa [matchStar] using h
    | cons c cs => simp [matchStar, h]
  | cons c cs ih => simp [matchStar, ih]

/-! ### Concrete fixtures used by witnesses and counterexamples -/

/-- Geometry backend over `Nat` labels: reprojection keeps the label,
buffering increments it (so buffered and unbuffered geometries are
distinguishable), every pixel is touched. -/
def opsNat : GeoOps Nat :=
  { toCrsG := fun g _ => g
    bufferG := fun g _ => g + 1
    touches := fun _ _ => true }

/-- Geometry backend over `Nat` labels whose geometries only touch the
pixels of row 0. -/
def opsRowZero : GeoOps Nat :=
  { toCrsG := fun g _ => g
    bufferG := fun g _ => g
    touches := fun _ p => decide (p.1 = 0) }

/-- A boundary in CRS 32610 with a single geometry labelled 0. -/
def bdyEx : Boundary Nat := { crs := 32610, geoms := [0] }

/-- A 2×2 tile file with the GHSL conventions (declared nodata −200). -/
def tileEx : TileFile :=
  { grid := [[1, -200], [3, 4]], crs := 32610, dtype := .int16
    nodata := some (-200) }

/-- A tile file whose declared nodata value 7 differs from the legacy
sentinel −200. -/
def tileOddNodata : TileFile :=
  { grid := [[7]], crs := 32610, dtype := .int16, nodata := some 7 }

/-- Normalized 3×3 tile A of end-to-end scenario 1. -/
def tileA : Raster :=
  { grid := [[some 1, none, some 3], [some 4, some 5, none],
             [some 7, some 8, some 9]]
    crs := 32610, dtype := .float32, nodata := .nan }

/-- Normalized 3×3 tile B of end-to-end scenario 1. -/
def tileB : Raster :=
  { grid := [[none, some 2, none], [some 4, some 6, some 6],
             [none, none, some 10]]
    crs := 32610, dtype := .float32, nodata := .nan }

/-- A world in which the year glob matched nothing. -/
def worldNoTiles : World Nat :=
  { tileFiles := [], boundary := none, writeOk := true }

/-- A fully healthy world: one tile, readable boundary in the tile's CRS,
writable destination. -/
def worldEx : World Nat :=
  { tileFiles := [tileEx], boundary := some bdyEx, writeOk := true }

/-- The default configuration: year 2025, reprojection enabled. -/
def cfg2025 : Config := { year := 2025, reproject := true }

/-- Result of clipping tile A to the row-0 mask. -/
def clippedA : Raster :=
  { tileA with grid := clipGrid opsRowZero [0] tileA.grid }

/-- The raster the healthy run writes. -/
def pipelineOutEx : Raster :=
  match (runPipeline opsNat worldEx cfg2025).2 with
  | .ok r => r
  | .error _ => { grid := [], crs := 0, dtype := .int16, nodata := .unspecified }

/-! ## Claim C1 — buffering of the boundary

The claim states that the 5000-unit buffer is applied in every run, even
when the boundary CRS already equals the mosaic CRS. Lines 78–79 read

```python
if boundary_gdf.crs != raster_crs:
    boundary_gdf = boundary_gdf.to_crs(raster_crs).buffer(5000)
```

so the buffer lives inside the reprojection branch: when the CRSs agree the
boundary is passed to the clip completely unchanged and unbuffered. -/

/-- C1 counterexample: with a backend whose buffer operation is observable
(it relabels geometry `g` to `g + 1`) and a boundary already in the mosaic
CRS 32610, the reconciled geometries are not the buffered ones the claim
requires. -/
theorem C1_counterexample :
    (reconcileBoundary opsNat bdyEx 32610).geoms ≠
      bdyEx.geoms.map (fun g => opsNat.bufferG (opsNat.toCrsG g 32610) 5000) := by
  decide

/-- C1 (amended): the 5000-linear-unit buffer is applied to every boundary
geometry independently, but only in runs whose boundary CRS differs from the
mosaic CRS (where the reprojection branch is taken); when the CRSs already
agree, the reconciliation is a no-op and NO buffer is applied — the
unbuffered geometries are what `runPipeline` passes to the clip step. -/
theorem C1_buffer_only_on_crs_mismatch {G : Type} (ops : GeoOps G)
    (b : Boundary G) (rasterCrs : Nat) :
    (b.crs ≠ rasterCrs →
      reconcileBoundary ops b rasterCrs =
        { crs := rasterCrs
          geoms := b.geoms.map (fun g => ops.bufferG (ops.toCrsG g rasterCrs) 5000) })
  ∧ (b.crs = rasterCrs → reconcileBoundary ops b rasterCrs = b) := by
  constructor <;> intro h <;> simp [reconcileBoundary, h]

/-- C1 witness: both branches of the amended statement at concrete inputs —
same CRS leaves the boundary untouched, different CRS buffers every
geometry. -/
theorem C1_buffer_only_on_crs_mismatch_witness :
    reconcileBoundary opsNat bdyEx 32610 = bdyEx ∧
    reconcileBoundary opsNat bdyEx 4326 = { crs := 4326, geoms := [1] } := by
  constructor
  · exact (C1_buffer_only_on_crs_mismatch opsNat bdyEx 32610).2 rfl
  · rw [(C1_buffer_only_on_crs_mismatch opsNat bdyEx 4326).1 (by decide)]
    decide

/-! ## Claim C2 — exit status and output integrity on fatal errors

The claim states a fatal error terminates the process with a non-zero exit
status. Lines 101–107 catch every exception, print it, and let `main`
return normally, so the interpreter exits with status 0; moreover
`rio.to_raster` (line 92) writes directly to the final output path, with no
temporary file and atomic rename. -/

/-- C2 counterexample: a run whose glob matches nothing hits the fatal
`FileNotFoundError`, yet the process exit status is 0, not non-zero as the
claim requires. -/
theorem C2_counterexample :
    (runPipeline opsNat worldNoTiles cfg2025).2 = .error .noInput ∧
    (pyMain opsNat worldNoTiles cfg2025).exitCode = 0 ∧
    ¬(pyMain opsNat worldNoTiles cfg2025).exitCode ≠ 0 :=
  ⟨rfl, rfl, fun h => h rfl⟩

/-- C2 (amended): for every run that hits a fatal error, the process prints
a diagnostic but terminates with exit status ZERO, because both `except`
branches of `main` swallow the exception; the code gives no non-zero status
(and writes directly to the target path, providing no atomicity mechanism
of its own). -/
theorem C2_error_prints_and_exits_zero {G : Type} (ops : GeoOps G)
    (w : World G) (cfg : Config) (e : PErr)
    (h : (runPipeline ops w cfg).2 = .error e) :
    pyMain ops w cfg = { exitCode := 0, printedDiagnostic := true } := by
  unfold pyMain
  rw [h]

/-- C2 witness: the amended statement at the concrete failing run. -/
theorem C2_error_prints_and_exits_zero_witness :
    pyMain opsNat worldNoTiles cfg2025 =
      { exitCode := 0, printedDiagnostic := true } :=
  C2_error_prints_and_exits_zero opsNat worldNoTiles cfg2025 .noInput rfl

/-! ## Claim C4 — merge is the commutative NaN-skipping maximum -/

/-- C4: for two normalized tiles over the same pixel grid (sharing CRS and
dtype, as normalized tiles do), the merge is commutative, every pixel of the
merge is the NaN-skipping maximum `nanmax2` of the two input pixels, and
`nanmax2` is NaN exactly when both inputs are NaN, the surviving value when
exactly one is, and the maximum when both are non-NaN. -/
theorem C4_merge_comm_and_nan_skipping_max (ra rb : Raster)
    (hcrs : ra.crs = rb.crs) (hdt : ra.dtype = rb.dtype) :
    mergeRasters ra [rb] = mergeRasters rb [ra]
  ∧ (∀ i j a b, cellAt ra.grid i j = some a → cellAt rb.grid i j = some b →
      cellAt (mergeRasters ra [rb]).grid i j = some (nanmax2 a b))
  ∧ nanmax2 none none = none
  ∧ (∀ x : Int, nanmax2 (some x) none = some x ∧ nanmax2 none (some x) = some x)
  ∧ (∀ x y : Int, nanmax2 (some x) (some y) = some (max x y)) := by
  refine ⟨?_, ?_, rfl, fun x => ⟨rfl, rfl⟩, fun x y => rfl⟩
  · simp [mergeRasters, mergeGrids, hcrs, hdt, gridZip_nanmax2_comm]
  · intro i j a b ha hb
    have h := cellAt_gridZip nanmax2 ra.grid rb.grid i j a b ha hb
    simpa [mergeRasters, mergeGrids] using h

/-- C4 witness: end-to-end scenario 1 — the two 3×3 tiles of §8 merge
commutatively into `[[1,2,3],[4,6,6],[7,8,10]]`, and the centre pixel is
`nanmax2 5 6`. -/
theorem C4_merge_comm_and_nan_skipping_max_witness :
    mergeRasters tileA [tileB] = mergeRasters tileB [tileA]
  ∧ cellAt (mergeRasters tileA [tileB]).grid 1 1 = some (nanmax2 (some 5) (some 6))
  ∧ (mergeRasters tileA [tileB]).grid =
      [[some 1, some 2, some 3], [some 4, some 6, some 6],
       [some 7, some 8, some 10]] := by
  have h := C4_merge_comm_and_nan_skipping_max tileA tileB rfl rfl
  exact ⟨h.1, h.2.1 1 1 (some 5) (some 6) (by decide) (by decide), by decide⟩

/-! ## Claim C5 — normalization of the legacy sentinel

The claim states that −200 maps to NaN and EVERY other pixel maps to its
own value. Because line 63 opens the tile with `masked=True`, a pixel equal
to the file's declared nodata value also maps to NaN even when that value
is not −200, so the "every other pixel keeps its value" half fails for such
tiles. -/

/-- C5 counterexample: in a tile whose declared nodata value is 7, the
pixel 7 is not the legacy sentinel −200, yet normalization maps it to NaN
instead of to its own value. -/
theorem C5_counterexample :
    (7 : Int) ≠ -200
  ∧ (normalizeTile tileOddNodata).grid = [[none]]
  ∧ (normalizeTile tileOddNodata).grid ≠ [[some 7]] := by
  decide

/-- C5 (amended): normalization maps a pixel to NaN exactly when it equals
the legacy sentinel −200 or the tile's declared nodata value, and maps every
other pixel to its value (exactly representable in the float32 cast); after
normalization the declared nodata sentinel is NaN and the dtype float32. -/
theorem C5_normalization (t : TileFile) (v : Int) :
    (v = -200 ∨ some v = t.nodata → normCell t.nodata v = none)
  ∧ (v ≠ -200 → some v ≠ t.nodata → normCell t.nodata v = some v)
  ∧ (normalizeTile t).nodata = .nan
  ∧ (normalizeTile t).dtype = .float32 := by
  refine ⟨?_, ?_, rfl, rfl⟩
  · rintro (h | h)
    · subst h
      unfold normCell maskedCell
      split <;> simp [whereCell]
    · simp [normCell, maskedCell, h, whereCell]
  · intro h1 h2
    unfold normCell maskedCell
    rw [if_neg h2]
    simp [whereCell, h1]

/-- C5 witness: the amended statement at concrete pixels of a GHSL tile
(declared nodata −200): the sentinel becomes NaN, the ordinary value 3 is
kept. -/
theorem C5_normalization_witness :
    normCell tileEx.nodata (-200) = none ∧ normCell tileEx.nodata 3 = some 3 :=
  ⟨(C5_normalization tileEx (-200)).1 (Or.inl rfl),
   (C5_normalization tileEx 3).2.1 (by decide) (by decide)⟩

/-! ## Claim C6 — empty glob aborts before any further processing -/

/-- C6: in every run whose year glob matched no raster file, the pipeline
fails with the no-input error (`FileNotFoundError`, the spec's
`NoInputError`) raised at line 49, and its event trace shows the boundary
file was never read and no tile was ever opened. -/
theorem C6_no_input_aborts_early {G : Type} (ops : GeoOps G) (w : World G)
    (cfg : Config) (h : w.tileFiles = []) :
    (runPipeline ops w cfg).2 = .error .noInput
  ∧ Event.readBoundary ∉ (runPipeline ops w cfg).1
  ∧ ∀ i, Event.openTile i ∉ (runPipeline ops w cfg).1 := by
  unfold runPipeline
  rw [h]
  simp

/-- C6 witness: the empty-glob world. -/
theorem C6_no_input_aborts_early_witness :
    (runPipeline opsNat worldNoTiles cfg2025).2 = .error .noInput
  ∧ Event.readBoundary ∉ (runPipeline opsNat worldNoTiles cfg2025).1
  ∧ Event.openTile 0 ∉ (runPipeline opsNat worldNoTiles cfg2025).1 := by
  have h := C6_no_input_aborts_early opsNat worldNoTiles cfg2025 rfl
  exact ⟨h.1, h.2.1, h.2.2 0⟩

/-! ## Claim C10 — the masked read maps declared nodata to NaN too -/

/-- C10: normalization is the sentinel substitution composed AFTER the
masked open (`normCell` is definitionally `whereCell ∘ maskedCell`), so a
pixel equal to the tile's declared nodata value becomes NaN even when that
value differs from −200, and a −200 pixel becomes NaN as well. -/
theorem C10_declared_nodata_and_sentinel_to_nan (t : TileFile) (n v : Int)
    (hnd : t.nodata = some n) :
    normCell t.nodata n = none
  ∧ (v = -200 → normCell t.nodata v = none)
  ∧ normCell t.nodata v = whereCell (maskedCell t.nodata v) := by
  refine ⟨?_, ?_, rfl⟩
  · simp [normCell, maskedCell, hnd, whereCell]
  · intro h
    subst h
    unfold normCell maskedCell
    split <;> simp [whereCell]

/-- C10 witness: in the tile with declared nodata 7, both the pixel 7
(≠ −200) and the pixel −200 normalize to NaN. -/
theorem C10_declared_nodata_and_sentinel_to_nan_witness :
    normCell tileOddNodata.nodata 7 = none
  ∧ normCell tileOddNodata.nodata (-200) = none := by
  have h := C10_declared_nodata_and_sentinel_to_nan tileOddNodata 7 (-200) rfl
  exact ⟨h.1, h.2.1 rfl⟩

/-! ## Claim C7 — clip monotonicity and masking -/

/-- C7: whenever the clip succeeds, every non-NaN pixel of the clipped
raster carries exactly the mosaic's value at the same coordinate and its
footprint intersects the mask geometry (all-touched inclusion), and every
in-extent pixel not touched by the mask is set to NaN. In `runPipeline` the
mask geometries are those produced by `reconcileBoundary`. -/
theorem C7_clip_monotone_and_masks {G : Type} (ops : GeoOps G)
    (geoms : List G) (r cl : Raster)
    (h : clipRaster ops geoms r = .ok cl) :
    (∀ i j v, cellAt cl.grid i j = some (some v) →
      cellAt r.grid i j = some (some v) ∧ maskTouches ops geoms i j = true)
  ∧ (∀ i j c, maskTouches ops geoms i j = false →
      cellAt r.grid i j = some c → cellAt cl.grid i j = some none) := by
  unfold clipRaster at h
  split at h
  case isFalse => simp at h
  case isTrue ht =>
    simp only [Except.ok.injEq] at h
    subst h
    constructor
    · intro i j v hv
      simp only [clipGrid] at hv
      rw [cellAt_mapGridIdx] at hv
      cases hcr : cellAt r.grid i j with
      | none => rw [hcr] at hv; simp at hv
      | some c =>
        rw [hcr] at hv
        simp only [Option.map_some'] at hv
        by_cases hm : maskTouches ops geoms i j = true
        · rw [if_pos hm] at hv
          simp only [Option.some.injEq] at hv
          exact ⟨congrArg some hv, hm⟩
        · rw [if_neg hm] at hv
          simp at hv
    · intro i j c hm hcr
      simp only [clipGrid]
      rw [cellAt_mapGridIdx, hcr]
      simp [hm]

/-- C7 witness: clipping tile A to a mask touching only row 0 keeps the
value 1 at the touched pixel (0,0) and sets the untouched in-extent pixel
(1,1) to NaN. -/
theorem C7_clip_monotone_and_masks_witness :
    cellAt tileA.grid 0 0 = some (some 1)
  ∧ maskTouches opsRowZero [0] 0 0 = true
  ∧ cellAt clippedA.grid 1 1 = some none := by
  have h := C7_clip_monotone_and_masks opsRowZero [0] tileA clippedA rfl
  exact ⟨(h.1 0 0 1 (by decide)).1, (h.1 0 0 1 (by decide)).2,
    h.2 1 1 (some 5) (by decide) (by decide)⟩

/-! ## Claim C3 — resampling method of the warp

The claim states the warp does not use nearest-neighbor resampling. Line 88
is `clipped.rio.reproject("EPSG:4326")` with no resampling argument, and
rioxarray's documented default for `rio.reproject` is `Resampling.nearest`,
so every reprojecting run warps with nearest-neighbor. -/

/-- Is an `Except` value a success? -/
def isOkExcept {ε α : Type} : Except ε α → Bool
  | .ok _ => true
  | .error _ => false

/-- C3 counterexample: a healthy reprojecting run succeeds and its trace
records a warp with nearest-neighbor resampling — contradicting the claim
that the resampling used is not nearest-neighbor. -/
theorem C3_counterexample :
    (runPipeline opsNat worldEx cfg2025).1 =
      [.readBoundary, .openTile 0, .clipped,
       .reprojected Resampling.nearest, .wrote]
  ∧ isOkExcept (runPipeline opsNat worldEx cfg2025).2 = true :=
  ⟨rfl, rfl⟩

/-- C3 (amended): when reprojection is enabled the clipped raster is warped
to EPSG:4326 with the library-default nearest-neighbor resampling — every
warp event any run can emit carries `Resampling.nearest`. -/
theorem C3_warp_uses_nearest {G : Type} (ops : GeoOps G) (w : World G)
    (cfg : Config) (rs : Resampling)
    (h : Event.reprojected rs ∈ (runPipeline ops w cfg).1) :
    rs = Resampling.nearest := by
  cases htf : w.tileFiles with
  | nil => simp [runPipeline, htf] at h
  | cons t ts =>
    cases hb : w.boundary with
    | none => simp [runPipeline, htf, hb] at h
    | some bdy =>
      cases hc : clipRaster ops
          (reconcileBoundary ops bdy (normalizeTile t).crs).geoms
          (mergeRasters (normalizeTile t) (ts.map normalizeTile)) with
      | error e => simp [runPipeline, htf, hb, hc] at h
      | ok cl =>
        cases hrep : cfg.reproject with
        | false =>
          cases hwo : w.writeOk with
          | false => simp [runPipeline, htf, hb, hc, hrep, hwo] at h
          | true => simp [runPipeline, htf, hb, hc, hrep, hwo] at h
        | true =>
          cases hwo : w.writeOk with
          | false =>
            simp [runPipeline, htf, hb, hc, hrep, hwo,
              rioReprojectDefaultResampling] at h
            exact h
          | true =>
            simp [runPipeline, htf, hb, hc, hrep, hwo,
              rioReprojectDefaultResampling] at h
            exact h

/-- C3 witness: the amended statement applied to the healthy reprojecting
run, whose trace does contain a warp event. -/
theorem C3_warp_uses_nearest_witness : Resampling.nearest = Resampling.nearest :=
  C3_warp_uses_nearest opsNat worldEx cfg2025 Resampling.nearest (by decide)

/-! ## Claim C8 — float32 dtype and NaN nodata from normalization onward -/

/-- C8: normalization produces float32/NaN metadata; merge keeps the dtype
of its (normalized) inputs and re-declares NaN; clip and reprojection carry
dtype and nodata over unchanged; the writer forces dtype float32 and keeps
the raster's nodata; and consequently the raster written by every
successful run has dtype float32 and nodata NaN. -/
theorem C8_float32_nan_invariant {G : Type} (ops : GeoOps G) (w : World G)
    (cfg : Config) (t : TileFile) (r : Raster) (rs : List Raster)
    (geoms : List G) (cl out : Raster) (dstCrs : Nat) (rsm : Resampling) :
    ((normalizeTile t).dtype = .float32 ∧ (normalizeTile t).nodata = .nan)
  ∧ ((mergeRasters r rs).dtype = r.dtype ∧ (mergeRasters r rs).nodata = .nan)
  ∧ (clipRaster ops geoms r = .ok cl →
      cl.dtype = r.dtype ∧ cl.nodata = r.nodata)
  ∧ ((reprojectRaster r dstCrs rsm).dtype = r.dtype
      ∧ (reprojectRaster r dstCrs rsm).nodata = r.nodata)
  ∧ ((writeRaster r).dtype = .float32 ∧ (writeRaster r).nodata = r.nodata)
  ∧ ((runPipeline ops w cfg).2 = .ok out →
      out.dtype = .float32 ∧ out.nodata = .nan) := by
  refine ⟨⟨rfl, rfl⟩, ⟨rfl, rfl⟩, ?_, ⟨rfl, rfl⟩, ⟨rfl, rfl⟩, ?_⟩
  · intro h
    unfold clipRaster at h
    split at h
    · simp only [Except.ok.injEq] at h
      subst h
      exact ⟨rfl, rfl⟩
    · simp at h
  · intro h
    cases htf : w.tileFiles with
    | nil => simp [runPipeline, htf] at h
    | cons t0 ts =>
      cases hb : w.boundary with
      | none => simp [runPipeline, htf, hb] at h
      | some bdy =>
        cases hc : clipRaster ops
            (reconcileBoundary ops bdy (normalizeTile t0).crs).geoms
            (mergeRasters (normalizeTile t0) (ts.map normalizeTile)) with
        | error e => simp [runPipeline, htf, hb, hc] at h
        | ok cl0 =>
          have hcl : cl0.nodata = NodataSpec.nan := by
            unfold clipRaster at hc
            split at hc
            · simp only [Except.ok.injEq] at hc
              rw [← hc]
              rfl
            · simp at hc
          cases hrep : cfg.reproject with
          | false =>
            cases hwo : w.writeOk with
            | false => simp [runPipeline, htf, hb, hc, hrep, hwo] at h
            | true =>
              simp [runPipeline, htf, hb, hc, hrep, hwo] at h
              rw [← h]
              exact ⟨rfl, hcl⟩
          | true =>
            cases hwo : w.writeOk with
            | false => simp [runPipeline, htf, hb, hc, hrep, hwo] at h
            | true =>
              simp [runPipeline, htf, hb, hc, hrep, hwo] at h
              rw [← h]
              exact ⟨rfl, hcl⟩

/-- C8 witness: the normalized GHSL tile has float32/NaN metadata and so
does the raster written by the healthy run. -/
theorem C8_float32_nan_invariant_witness :
    (normalizeTile tileEx).dtype = .float32
  ∧ (normalizeTile tileEx).nodata = .nan
  ∧ pipelineOutEx.dtype = .float32
  ∧ pipelineOutEx.nodata = .nan := by
  have h := C8_float32_nan_invariant opsNat worldEx cfg2025 tileEx tileA
    ([] : List Raster) ([] : List Nat) tileA pipelineOutEx 4326
    Resampling.nearest
  exact ⟨h.1.1, h.1.2, (h.2.2.2.2.2 rfl).1, (h.2.2.2.2.2 rfl).2⟩

/-! ## Claim C9 — the output file matches its own discovery pattern -/

/-- C9: the output file `ghsl_<year>.tif` is written into the very
directory the year glob searches, its name matches the glob pattern
`*<year>*.tif` (both in the declarative reading and for the executable
matcher), and therefore any later directory listing for the same year that
contains the previous output discovers it as an input tile. -/
theorem C9_output_rediscovered (year : Nat) (dataFolder : FileName) :
    outputPath dataFolder year =
      joinPath (globDir dataFolder) (outputFileName year)
  ∧ globSpec year (outputFileName year)
  ∧ matchesYearPattern year (outputFileName year) = true
  ∧ ∀ listing : List FileName, outputFileName year ∈ listing →
      outputFileName year ∈ listing.filter (matchesYearPattern year) := by
  have hmatch : matchesYearPattern year (outputFileName year) = true := by
    unfold matchesYearPattern outputFileName
    rw [List.append_assoc]
    exact matchStar_of_matchTail (toString year).data ".tif".data "ghsl_".data
      ((toString year).data ++ ".tif".data)
      (matchTail_append_self (toString year).data ".tif".data)
  refine ⟨rfl, ⟨"ghsl_".data, [], by simp [outputFileName]⟩, hmatch, ?_⟩
  intro listing hmem
  exact List.mem_filter.2 ⟨hmem, hmatch⟩

/-- C9 witness: for year 2025, a listing containing the previous output
`ghsl_2025.tif` rediscovers it through the `*2025*.tif` filter. -/
theorem C9_output_rediscovered_witness :
    outputFileName 2025 ∈
      ([outputFileName 2025].filter (matchesYearPattern 2025)) := by
  have h := C9_output_rediscovered 2025 "../data".data
  exact h.2.2.2 [outputFileName 2025] (List.mem_singleton.mpr rfl)
